import Mathlib

/-!
# Verification of the YAPP file-transfer protocol engine

A shallow embedding of `src/core/yapp_handler.py` (class `YappHandler`):
the packet builders, the incremental receive-buffer framer, the dual-role
(sender/receiver) state machine, the timeout/retry policy and the public
session API.  Bytes are modelled as `Nat` (each `< 256` on the wire),
byte strings as `List Nat`, and the handler object as an explicit record
threaded through every operation.  Side effects (serial writes, the
`on_event` / `on_progress` / `on_finished` / `on_rx_data` callbacks) are
modelled as append-only logs inside the record; the `threading.Timer`
crash timer is modelled as an armed/disarmed flag plus an explicit
`onTimeout` event, and the file system as in-memory reader/writer
handles.
-/

namespace Yapp

/-- States of the YAPP state machine (`YappState` in the source).
`ERROR` is the `Failed` terminal state of the specification. -/
inductive YappState where
  | IDLE
  | S_INIT
  | S_HEADER
  | S_DATA
  | S_EOF
  | S_EOT
  | R_WAIT
  | R_HEADER
  | R_DATA
  | DONE
  | ERROR
  | CW_WAIT
  deriving DecidableEq, Repr

/-- Event kinds for the control log (`YappEvent` in the source). -/
inductive YappEvent where
  | INFO
  | SENT
  | RECEIVED
  | ERROR
  | SUCCESS
  deriving DecidableEq, Repr

-- Protocol constants (ASCII control codes), as in the source.
def SOH : Nat := 0x01
def STX : Nat := 0x02
def ETX : Nat := 0x03
def EOT : Nat := 0x04
def ENQ : Nat := 0x05
def ACK : Nat := 0x06
def DLE : Nat := 0x10
def NAK : Nat := 0x15
def CAN : Nat := 0x18

def MAX_DATA_LEN : Nat := 250
def MAX_SI_RETRIES : Nat := 5

/-- An open file handle for reading (sender side): the file contents and
the current read position, modelling `open(filepath, 'rb')`. -/
structure FileReader where
  contents : List Nat
  pos : Nat
  deriving DecidableEq, Repr

/-- A file handle is either open for reading (sender) or open for
writing (receiver, accumulating the written bytes). -/
inductive FileHandle where
  | reader (r : FileReader)
  | writer (written : List Nat)
  deriving DecidableEq, Repr

/-- The `YappHandler` object.  The first block of fields is the mutable
session state of the Python object; the second block is the append-only
record of observable effects (raw packets handed to `send_raw`, control
events via `on_event`, progress callbacks, `on_finished` calls, and
non-YAPP passthrough bytes via `on_rx_data`). -/
structure Handler where
  state : YappState
  rxBuf : List Nat
  fileHandle : Option FileHandle
  filename : List Nat
  fileSize : Nat
  bytesTransferred : Nat
  downloadDir : String
  siRetries : Nat
  timer : Bool
  sent : List (List Nat)
  events : List (YappEvent × String)
  progress : List (Nat × Nat)
  finished : List (Bool × String)
  rxPassthrough : List (List Nat)
  deriving DecidableEq, Repr

/-- A freshly constructed handler (`YappHandler.__init__`). -/
def initHandler : Handler :=
  { state := .IDLE
    rxBuf := []
    fileHandle := none
    filename := []
    fileSize := 0
    bytesTransferred := 0
    downloadDir := ""
    siRetries := 0
    timer := false
    sent := []
    events := []
    progress := []
    finished := []
    rxPassthrough := [] }

/-- `bytes.decode('ascii', errors='replace')`: non-ASCII bytes become the
replacement character. -/
def asciiDecode (bs : List Nat) : String :=
  String.mk (bs.map (fun b => if b < 128 then Char.ofNat b else Char.ofNat 0xFFFD))

/-- `str.encode('ascii', errors='replace')`: non-ASCII characters become
a question mark. -/
def strToBytes (s : String) : List Nat :=
  s.toList.map (fun c => if c.toNat < 128 then c.toNat else 63)

/-- `str(n)` for a non-negative integer, as ASCII digit bytes. -/
def decBytes (n : Nat) : List Nat :=
  strToBytes (Nat.repr n)

/-- `bytes.split(b'\x00')`: split a byte string at every NUL byte. -/
def splitOnZero : List Nat → List (List Nat)
  | [] => [[]]
  | 0 :: rest => [] :: splitOnZero rest
  | b :: rest =>
    match splitOnZero rest with
    | [] => [[b]]
    | p :: ps => (b :: p) :: ps

/-- `int(s)` on an ASCII byte string of decimal digits; `none` models a
`ValueError`. -/
def parseDec (l : List Nat) : Option Nat :=
  if l ≠ [] ∧ l.all (fun c => 48 ≤ c ∧ c ≤ 57) then
    some (l.foldl (fun a c => a * 10 + (c - 48)) 0)
  else none

-- ==========================================================================
-- Effect helpers
-- ==========================================================================

/-- `_send_packet`: hand raw bytes to the `send_raw` callback. -/
def sendPacket (h : Handler) (p : List Nat) : Handler :=
  { h with sent := h.sent ++ [p] }

/-- `_log`: raise an `on_event` callback. -/
def logEvent (h : Handler) (e : YappEvent) (m : String) : Handler :=
  { h with events := h.events ++ [(e, m)] }

/-- `_start_timer`: (re)arm the crash timer. -/
def startTimer (h : Handler) : Handler :=
  { h with timer := true }

/-- `_cancel_timer`: disarm the crash timer. -/
def cancelTimer (h : Handler) : Handler :=
  { h with timer := false }

/-- `_update_progress`: raise the `on_progress` callback. -/
def updateProgress (h : Handler) : Handler :=
  { h with progress := h.progress ++ [(h.bytesTransferred, h.fileSize)] }

/-- `_finish`: cancel the timer, close any open file handle, enter the
terminal state (`DONE` on success, `ERROR` on failure), log, and fire
`on_finished`. -/
def finish (h : Handler) (success : Bool) (msg : String) : Handler :=
  let h1 := cancelTimer h
  let h2 := { h1 with fileHandle := none }
  let h3 := { h2 with state := if success then YappState.DONE else YappState.ERROR }
  let h4 := logEvent h3 (if success then YappEvent.SUCCESS else YappEvent.ERROR) msg
  { h4 with finished := h4.finished ++ [(success, msg)] }

-- ==========================================================================
-- Protocol packet builders
-- ==========================================================================

/-- `_send_si`: SI (Send Init) = `ENQ 01`. -/
def sendSi (h : Handler) : Handler :=
  startTimer (logEvent (sendPacket h [ENQ, 0x01]) .SENT "SI (Send Init)")

/-- `_send_header`: HD = `SOH len filename NUL filesize NUL`. -/
def sendHeader (h : Handler) : Handler :=
  let payload := h.filename ++ [0] ++ decBytes h.fileSize ++ [0]
  let pkt := [SOH, payload.length] ++ payload
  let h1 := sendPacket h pkt
  let fn := asciiDecode h.filename
  let sz := h.fileSize
  let h2 := logEvent h1 .SENT s!"HD (Header) file={fn} size={sz}"
  startTimer { h2 with state := .S_HEADER }

/-- `_send_data_block`: read up to `MAX_DATA_LEN` bytes from the open
reader and emit one DT packet (`STX len data`, length byte 0 meaning
256).  Returns the updated handler and whether data remained. -/
def sendDataBlock (h : Handler) : Handler × Bool :=
  match h.fileHandle with
  | some (FileHandle.reader r) =>
    let data := (r.contents.drop r.pos).take MAX_DATA_LEN
    if data = [] then (h, false)
    else
      let length := data.length
      let lenByte := if length < 256 then length else 0
      let h1 := sendPacket h ([STX, lenByte] ++ data)
      let h2 := { h1 with
        fileHandle := some (FileHandle.reader { r with pos := r.pos + length })
        bytesTransferred := h1.bytesTransferred + length }
      (updateProgress h2, true)
  | _ => (h, false)

/-- `_send_eof`: EF = `ETX 01`. -/
def sendEof (h : Handler) : Handler :=
  startTimer { (logEvent (sendPacket h [ETX, 0x01]) .SENT "EF (End of File)") with
    state := .S_EOF }

/-- `_send_eot`: ET = `EOT 01`. -/
def sendEot (h : Handler) : Handler :=
  startTimer { (logEvent (sendPacket h [EOT, 0x01]) .SENT "ET (End of Transmission)") with
    state := .S_EOT }

/-- `_send_rr`: RR = `ACK 01`. -/
def sendRr (h : Handler) : Handler :=
  logEvent (sendPacket h [ACK, 0x01]) .SENT "RR (Receive Ready)"

/-- `_send_rf`: RF = `ACK 02`. -/
def sendRf (h : Handler) : Handler :=
  logEvent (sendPacket h [ACK, 0x02]) .SENT "RF (Receive File)"

/-- `_send_af`: AF = `ACK 03`. -/
def sendAf (h : Handler) : Handler :=
  logEvent (sendPacket h [ACK, 0x03]) .SENT "AF (Ack End of File)"

/-- `_send_at`: AT = `ACK 04`. -/
def sendAt (h : Handler) : Handler :=
  logEvent (sendPacket h [ACK, 0x04]) .SENT "AT (Ack End of Transmission)"

/-- `_send_nr`: NR = `NAK len reason`. -/
def sendNr (h : Handler) (reason : String) : Handler :=
  let payload := strToBytes reason
  logEvent (sendPacket h ([NAK, payload.length] ++ payload)) .SENT s!"NR (Not Ready) {reason}"

/-- `_send_cancel`: CN = `CAN len reason`. -/
def sendCancel (h : Handler) (reason : String) : Handler :=
  let payload := strToBytes reason
  logEvent (sendPacket h ([CAN, payload.length] ++ payload)) .SENT s!"CN (Cancel) {reason}"

/-- `_send_ca`: CA = `ACK 05`. -/
def sendCa (h : Handler) : Handler :=
  logEvent (sendPacket h [ACK, 0x05]) .SENT "CA (Cancel Ack)"

-- ==========================================================================
-- Data send loop
-- ==========================================================================

/-- One unfolding bound for `_send_data_loop`; each iteration advances the
read position by at least one byte, so `contents.length + 2` always
suffices. -/
def sendDataLoopFuel (h : Handler) : Nat :=
  match h.fileHandle with
  | some (FileHandle.reader r) => r.contents.length + 2
  | _ => 2

/-- `_send_data_loop`, fuelled: while in `S_DATA` emit data blocks; when
the file is exhausted close it and send EF. -/
def sendDataLoopAux : Nat → Handler → Handler
  | 0, h => h
  | fuel + 1, h =>
    if h.state = YappState.S_DATA then
      match sendDataBlock h with
      | (h1, true) => sendDataLoopAux fuel h1
      | (h1, false) => sendEof { h1 with fileHandle := none }
    else h

/-- `_send_data_loop`. -/
def sendDataLoop (h : Handler) : Handler :=
  sendDataLoopAux (sendDataLoopFuel h) h

-- ==========================================================================
-- State-machine dispatch
-- ==========================================================================

/-- `_parse_header`: split the HD payload at NUL bytes into filename and
decimal size (size parse failure falls back to 0), then open the target
file for writing and move to `R_DATA`, or reject an empty filename. -/
def parseHeader (h0 : Handler) (payload : List Nat) : Handler :=
  let parts := splitOnZero payload
  let h :=
    if 2 ≤ parts.length then
      let fs :=
        match parseDec ((parts.drop 1).headD []) with
        | some n => n
        | none => 0
      { h0 with filename := parts.headD [], fileSize := fs }
    else h0
  let fn := asciiDecode h.filename
  let sz := h.fileSize
  let h := logEvent h .RECEIVED s!"HD (Header) file={fn} size={sz}"
  if h.filename = [] then
    finish (sendNr h "Invalid filename") false "Invalid filename in header"
  else
    let h := { h with fileHandle := some (FileHandle.writer []), bytesTransferred := 0 }
    let h := sendRf h
    let h := { h with state := .R_DATA }
    logEvent h .INFO s!"Receiving {fn}..."

/-- `_process_sender_response`: responses while in `S_INIT`, `S_HEADER`,
`S_EOF` or `S_EOT`.  The handler's buffer is `first :: second :: rest`;
the returned flag is `True` iff bytes were consumed. -/
def processSenderResponse (h0 : Handler) (first second : Nat) (rest : List Nat) :
    Handler × Bool :=
  let h := cancelTimer h0
  if first = ACK then
    let h := { h with rxBuf := rest }
    if second = 0x01 then
      let h := logEvent h .RECEIVED "RR (Receive Ready)"
      (if h.state = .S_INIT then sendHeader h else h, true)
    else if second = 0x02 then
      let h := logEvent h .RECEIVED "RF (Receive File)"
      if h.state = .S_INIT ∨ h.state = .S_HEADER then
        let h := { h with state := .S_DATA }
        let h := logEvent h .INFO "Sending data..."
        (sendDataLoop h, true)
      else (h, true)
    else if second = 0x03 then
      let h := logEvent h .RECEIVED "AF (Ack End of File)"
      (if h.state = .S_EOF then sendEot h else h, true)
    else if second = 0x04 then
      let h := logEvent h .RECEIVED "AT (Ack End of Transmission)"
      if h.state = .S_EOT then
        let fn := asciiDecode h.filename
        (finish h true s!"File sent successfully: {fn}", true)
      else (h, true)
    else if second = 0x05 then
      let h := logEvent h .RECEIVED "CA (Cancel Ack)"
      (finish h false "Transfer cancelled", true)
    else if second = ACK then
      let h := logEvent h .RECEIVED "RT (YappC requested - not supported, using standard)"
      if h.state = .S_INIT ∨ h.state = .S_HEADER then
        (sendDataLoop { h with state := .S_DATA }, true)
      else (h, true)
    else (h, true)
  else if first = NAK then
    if rest.length < second then (h, false)
    else
      let payload := rest.take second
      let h := { h with rxBuf := rest.drop second }
      if payload ≠ [] ∧ payload.headD 0 = 82 then
        let h := logEvent h .RECEIVED "RE (Resume) - not supported, restarting"
        if h.state = .S_HEADER then
          match h.fileHandle with
          | some (FileHandle.reader r) =>
            (sendHeader { h with
              fileHandle := some (FileHandle.reader { r with pos := 0 })
              bytesTransferred := 0 }, true)
          | _ => (sendHeader { h with bytesTransferred := 0 }, true)
        else (h, true)
      else
        let reason := asciiDecode payload
        let h := logEvent h .RECEIVED s!"NR (Not Ready) {reason}"
        (finish h false s!"Remote not ready: {reason}", true)
  else
    ({ h with rxBuf := second :: rest }, true)

/-- `_process_receiver_control`: control packets in `R_WAIT` / `R_HEADER`. -/
def processReceiverControl (h0 : Handler) (first second : Nat) (rest : List Nat) :
    Handler × Bool :=
  let h := cancelTimer h0
  if first = ENQ ∧ second = 0x01 then
    let h := { h with rxBuf := rest }
    let h := logEvent h .RECEIVED "SI (Send Init)"
    let h := sendRr h
    (startTimer { h with state := .R_HEADER }, true)
  else if first = SOH then
    if rest.length < second then (h, false)
    else
      let payload := rest.take second
      let h := { h with rxBuf := rest.drop second }
      (parseHeader h payload, true)
  else if first = EOT ∧ second = 0x01 then
    let h := { h with rxBuf := rest }
    let h := logEvent h .RECEIVED "ET (End of Transmission)"
    let h := sendAt h
    (finish h true "Transfer complete (no files)", true)
  else
    ({ h with rxBuf := second :: rest }, true)

/-- `_process_receiver_data`: packets in `R_DATA`.  A Data length byte of
0 denotes 256 payload bytes.  A write on a non-writer handle models the
`except` branch of the Python `write` call. -/
def processReceiverData (h : Handler) (first second : Nat) (rest : List Nat) :
    Handler × Bool :=
  if first = STX then
    let length := if second ≠ 0 then second else 256
    if rest.length < length then (h, false)
    else
      let data := rest.take length
      let h := { h with rxBuf := rest.drop length }
      match h.fileHandle with
      | some (FileHandle.writer w) =>
        let h := { h with
          fileHandle := some (FileHandle.writer (w ++ data))
          bytesTransferred := h.bytesTransferred + length }
        (updateProgress h, true)
      | some (FileHandle.reader _) =>
        let h := sendCancel h "Write error: unsupported operation"
        (finish h false "File write error: unsupported operation", true)
      | none => (h, true)
  else if first = ETX ∧ second = 0x01 then
    let h := { h with rxBuf := rest }
    let h := logEvent h .RECEIVED "EF (End of File)"
    let h := { h with fileHandle := none }
    let h := sendAf h
    let h := startTimer { h with state := .R_HEADER }
    let fn := asciiDecode h.filename
    let bt := h.bytesTransferred
    (logEvent h .SUCCESS s!"File received: {fn} ({bt} bytes)", true)
  else if first = EOT ∧ second = 0x01 then
    let h := { h with rxBuf := rest }
    let h := logEvent h .RECEIVED "ET (End of Transmission)"
    let h := { h with fileHandle := none }
    let h := sendAt h
    let fn := asciiDecode h.filename
    let bt := h.bytesTransferred
    (finish h true s!"Received {fn} ({bt} bytes)", true)
  else if first = CAN then
    if rest.length < second then (h, false)
    else
      let h := { h with rxBuf := rest.drop second }
      let h := sendCa h
      (finish h false "Cancelled by remote", true)
  else
    ({ h with rxBuf := second :: rest }, true)

/-- `_process_sender_data_interrupt`: bytes received while in `S_DATA`.
Only TX (Text) packets are tolerated; anything else aborts. -/
def processSenderDataInterrupt (h : Handler) (first second : Nat) (rest : List Nat) :
    Handler × Bool :=
  if first = DLE then
    if rest.length < second then (h, false)
    else
      let text := asciiDecode (rest.take second)
      let h := { h with rxBuf := rest.drop second }
      (logEvent h .RECEIVED s!"TX: {text}", true)
  else
    let h := { h with rxBuf := [] }
    let h := sendCancel h "Unexpected data during send"
    (finish h false "Protocol error: unexpected data during send", true)

/-- One iteration of the `_process_buffer` while-loop on a buffer
`first :: second :: rest`: the remote-Cancel fast path, then the
state-dependent dispatch.  The boolean is `true` exactly when the loop
continues (bytes were consumed and the iteration did not `return`). -/
def processBufferStep (h : Handler) (first second : Nat) (rest : List Nat) : Handler × Bool :=
  if first = CAN then
    if rest.length < second then (h, false)
    else
      let reason := asciiDecode (rest.take second)
      let h := { h with rxBuf := rest.drop second }
      let h := logEvent h .RECEIVED s!"CN (Cancel) {reason}"
      let h := sendCa h
      (finish h false s!"Cancelled by remote: {reason}", false)
  else if h.state = .S_INIT ∨ h.state = .S_HEADER ∨ h.state = .S_EOF ∨ h.state = .S_EOT then
    processSenderResponse h first second rest
  else if h.state = .R_WAIT ∨ h.state = .R_HEADER then
    processReceiverControl h first second rest
  else if h.state = .R_DATA then
    processReceiverData h first second rest
  else if h.state = .S_DATA then
    processSenderDataInterrupt h first second rest
  else
    ({ h with rxBuf := [] }, false)

/-- The fuelled `_process_buffer` while-loop.  Every consuming iteration
removes at least one byte from the front of the buffer, so fuel
`rxBuf.length + 1` always suffices. -/
def processBufferAux : Nat → Handler → Handler
  | 0, h => h
  | fuel + 1, h =>
    match h.rxBuf with
    | first :: second :: rest =>
      let step := processBufferStep h first second rest
      if step.2 then processBufferAux fuel step.1 else step.1
    | _ => h

/-- `_process_buffer`. -/
def processBuffer (h : Handler) : Handler :=
  processBufferAux (h.rxBuf.length + 1) h

-- ==========================================================================
-- Public API
-- ==========================================================================

/-- `process_data`: in `IDLE`, bytes pass straight through to
`on_rx_data`; otherwise they are appended to the receive buffer and the
framer runs. -/
def processData (h : Handler) (data : List Nat) : Handler :=
  if h.state = YappState.IDLE then
    { h with rxPassthrough := h.rxPassthrough ++ [data] }
  else
    processBuffer { h with rxBuf := h.rxBuf ++ data }

/-- `start_send`: the file system is modelled by passing the file's
basename and contents directly (the file exists and opens successfully). -/
def startSend (h : Handler) (name contents : List Nat) : Handler × Bool × String :=
  if h.state ≠ YappState.IDLE then (h, false, "Transfer already in progress")
  else
    let h := { h with
      filename := name
      fileSize := contents.length
      fileHandle := some (FileHandle.reader { contents := contents, pos := 0 })
      bytesTransferred := 0
      siRetries := 0
      state := .S_INIT
      rxBuf := [] }
    let fn := asciiDecode h.filename
    let sz := h.fileSize
    let h := logEvent h .INFO s!"Starting send: {fn} ({sz} bytes)"
    let h := sendSi h
    (h, true, s!"Sending {fn}")

/-- `start_receive` (directory creation always succeeds). -/
def startReceive (h : Handler) (dir : String) : Handler × Bool × String :=
  if h.state ≠ YappState.IDLE then (h, false, "Transfer already in progress")
  else
    let h := { h with
      downloadDir := dir
      rxBuf := []
      bytesTransferred := 0
      filename := []
      fileSize := 0
      state := .R_WAIT }
    let h := logEvent h .INFO "Waiting for sender (SI)..."
    (startTimer h, true, "Waiting for file transfer")

/-- `cancel`: a no-op in `IDLE`, `DONE` and `ERROR`; otherwise send CN
and finish. -/
def cancelOp (h : Handler) : Handler :=
  if h.state = YappState.IDLE ∨ h.state = YappState.DONE ∨ h.state = YappState.ERROR then h
  else finish (sendCancel h "Cancelled by user") false "Transfer cancelled by user"

/-- `_on_timeout`: the crash-timer callback. -/
def onTimeout (h : Handler) : Handler :=
  if h.state = YappState.S_INIT ∧ h.siRetries < MAX_SI_RETRIES then
    let h := { h with siRetries := h.siRetries + 1 }
    let n := h.siRetries
    let m := MAX_SI_RETRIES
    sendSi (logEvent h .INFO s!"Timeout, retrying SI ({n}/{m})...")
  else if h.state ≠ YappState.IDLE then
    let h := logEvent h .ERROR "Timeout - no response from remote"
    let h := sendCancel h "Timeout"
    finish h false "Timeout: no response from remote station"
  else h

/-- A physical timeout delivery: the timer callback can only fire while
the timer is armed. -/
def timeoutStep (h : Handler) : Handler :=
  if h.timer then onTimeout h else h

-- ==========================================================================
-- Packet codec (round-trip claim)
-- ==========================================================================

/-- Logical packet kinds.  The first twelve have packet builders in the
source (`_send_si` .. `_send_ca`, `_send_header`, `_send_data_block`);
`recvTpk`, `resume` and `text` occur only on the decode side, and their
encodings follow the wire-format table of the source's header comment. -/
inductive PacketKind where
  | sendInit
  | recvReady
  | recvFile
  | ackEof
  | ackEot
  | cancelAck
  | header
  | data
  | eof
  | eot
  | notReady
  | cancel
  | recvTpk
  | resume
  | text
  deriving DecidableEq, Repr

/-- Wire encoding of a packet, from the source's packet builders (the
Data length byte is 0 when the payload has 256 bytes or more, as in
`_send_data_block`). -/
def encode : PacketKind → List Nat → List Nat
  | .sendInit, _ => [ENQ, 0x01]
  | .recvReady, _ => [ACK, 0x01]
  | .recvFile, _ => [ACK, 0x02]
  | .ackEof, _ => [ACK, 0x03]
  | .ackEot, _ => [ACK, 0x04]
  | .cancelAck, _ => [ACK, 0x05]
  | .header, p => [SOH, p.length] ++ p
  | .data, p => [STX, if p.length < 256 then p.length else 0] ++ p
  | .eof, _ => [ETX, 0x01]
  | .eot, _ => [EOT, 0x01]
  | .notReady, p => [NAK, p.length] ++ p
  | .cancel, p => [CAN, p.length] ++ p
  | .recvTpk, _ => [ACK, ACK]
  | .resume, p => [NAK, p.length] ++ p
  | .text, p => [DLE, p.length] ++ p

/-- Result of one decode step of the packet codec. -/
inductive DecodeResult where
  | ok (kind : PacketKind) (payload : List Nat) (consumed : Nat)
  | needMoreData
  | invalid
  deriving DecidableEq, Repr

/-- `decode_one`, the decode side of the codec contract.  The source has
no standalone decoder (decoding is inlined in the state handlers), so
this definition is the spec side of the round-trip refinement claim,
following the spec's codec contract: fixed two-byte header; subtype in
the second header byte for the acknowledgement class and the fixed
`ENQ`/`ETX`/`EOT` packets; a Data length byte of 0 denotes 256 payload
bytes; a `NAK` payload beginning with ASCII `R` is a Resume request. -/
def decodeOneSpec (buf : List Nat) : DecodeResult :=
  match buf with
  | c :: s :: rest =>
    if c = ACK then
      if s = 0x01 then .ok .recvReady [] 2
      else if s = 0x02 then .ok .recvFile [] 2
      else if s = 0x03 then .ok .ackEof [] 2
      else if s = 0x04 then .ok .ackEot [] 2
      else if s = 0x05 then .ok .cancelAck [] 2
      else if s = ACK then .ok .recvTpk [] 2
      else .invalid
    else if c = ENQ then
      if s = 0x01 then .ok .sendInit [] 2 else .invalid
    else if c = ETX then
      if s = 0x01 then .ok .eof [] 2 else .invalid
    else if c = EOT then
      if s = 0x01 then .ok .eot [] 2 else .invalid
    else if c = SOH then
      if rest.length < s then .needMoreData else .ok .header (rest.take s) (2 + s)
    else if c = STX then
      let n := if s ≠ 0 then s else 256
      if rest.length < n then .needMoreData else .ok .data (rest.take n) (2 + n)
    else if c = NAK then
      if rest.length < s then .needMoreData
      else
        let p := rest.take s
        if p ≠ [] ∧ p.headD 0 = 82 then .ok .resume p (2 + s)
        else .ok .notReady p (2 + s)
    else if c = CAN then
      if rest.length < s then .needMoreData else .ok .cancel (rest.take s) (2 + s)
    else if c = DLE then
      if rest.length < s then .needMoreData else .ok .text (rest.take s) (2 + s)
    else .invalid
  | _ => .needMoreData

-- ==========================================================================
-- Concrete reachable sessions used by examples and witnesses
-- ==========================================================================

/-- A receiver session right after `start_receive`: state `R_WAIT`. -/
def recvWaiting : Handler := (startReceive initHandler "dl").1

/-- The receiver after `SI` and a header naming file `a` of size 1:
state `R_DATA`, `fileSize = 1`, an open write handle. -/
def recvData : Handler :=
  processData (processData recvWaiting [ENQ, 0x01]) [SOH, 4, 97, 0, 49, 0]

/-- A sender session right after `start_send` of a 2-byte file `a`:
state `S_INIT`, no retries yet, one SI packet sent. -/
def senderStarted : Handler := (startSend initHandler [97] [104, 105]).1

/-- Number of SI (Send Init) packets `ENQ 01` handed to the transport. -/
def countSI (h : Handler) : Nat :=
  (h.sent.filter (fun p => p = [ENQ, 0x01])).length

-- ==========================================================================
-- Framing lemmas for the buffer loop
-- ==========================================================================

lemma processBufferAux_nil (fuel : Nat) (h : Handler) (hb : h.rxBuf = []) :
    processBufferAux fuel h = h := by
  cases fuel with
  | zero => rfl
  | succ n => rw [processBufferAux, hb]

lemma processBufferAux_succ (fuel : Nat) (h : Handler) (first second : Nat) (rest : List Nat)
    (hbuf : h.rxBuf = first :: second :: rest) :
    processBufferAux (fuel + 1) h =
      if (processBufferStep h first second rest).2 then
        processBufferAux fuel (processBufferStep h first second rest).1
      else (processBufferStep h first second rest).1 := by
  rw [processBufferAux, hbuf]

lemma processSenderResponse_cancelTimer (h : Handler) (a b : Nat) (rest : List Nat) :
    processSenderResponse { h with timer := false } a b rest =
      processSenderResponse h a b rest := rfl

lemma processReceiverControl_cancelTimer (h : Handler) (a b : Nat) (rest : List Nat) :
    processReceiverControl { h with timer := false } a b rest =
      processReceiverControl h a b rest := rfl

/-- In the sender-response states the dispatched handler cancels the
timer before anything else, so a pre-cleared timer does not change the
outcome of the buffer loop. -/
lemma processBufferAux_timer_sender (fuel : Nat) (h : Handler) (a b : Nat) (rest : List Nat)
    (hbuf : h.rxBuf = a :: b :: rest) (hca : ¬ a = CAN)
    (hst : h.state = YappState.S_INIT ∨ h.state = YappState.S_HEADER ∨
      h.state = YappState.S_EOF ∨ h.state = YappState.S_EOT) :
    processBufferAux (fuel + 1) { h with timer := false } = processBufferAux (fuel + 1) h := by
  rw [processBufferAux_succ fuel { h with timer := false } a b rest hbuf,
      processBufferAux_succ fuel h a b rest hbuf]
  have hstep : processBufferStep { h with timer := false } a b rest =
      processBufferStep h a b rest := by
    rw [processBufferStep, processBufferStep, if_neg hca, if_neg hca, if_pos hst, if_pos hst]
    exact processSenderResponse_cancelTimer h a b rest
  rw [hstep]

/-- Same for the receiver-control states. -/
lemma processBufferAux_timer_recv (fuel : Nat) (h : Handler) (a b : Nat) (rest : List Nat)
    (hbuf : h.rxBuf = a :: b :: rest) (hca : ¬ a = CAN)
    (hst : h.state = YappState.R_WAIT ∨ h.state = YappState.R_HEADER) :
    processBufferAux (fuel + 1) { h with timer := false } = processBufferAux (fuel + 1) h := by
  rw [processBufferAux_succ fuel { h with timer := false } a b rest hbuf,
      processBufferAux_succ fuel h a b rest hbuf]
  have hstep : processBufferStep { h with timer := false } a b rest =
      processBufferStep h a b rest := by
    have hnot : ¬ (h.state = YappState.S_INIT ∨ h.state = YappState.S_HEADER ∨
        h.state = YappState.S_EOF ∨ h.state = YappState.S_EOT) := by
      rcases hst with h1 | h1 <;> rw [h1] <;> intro hcon <;>
        rcases hcon with hx | hx | hx | hx <;> cases hx
    rw [processBufferStep, processBufferStep, if_neg hca, if_neg hca, if_neg hnot, if_neg hnot,
        if_pos hst, if_pos hst]
    exact processReceiverControl_cancelTimer h a b rest
  rw [hstep]

lemma processBuffer_timer_sender (h : Handler) (a b : Nat) (rest : List Nat)
    (hbuf : h.rxBuf = a :: b :: rest) (hca : ¬ a = CAN)
    (hst : h.state = YappState.S_INIT ∨ h.state = YappState.S_HEADER ∨
      h.state = YappState.S_EOF ∨ h.state = YappState.S_EOT) :
    processBuffer { h with timer := false } = processBuffer h := by
  rw [processBuffer, processBuffer]
  exact processBufferAux_timer_sender h.rxBuf.length h a b rest hbuf hca hst

lemma processBuffer_timer_recv (h : Handler) (a b : Nat) (rest : List Nat)
    (hbuf : h.rxBuf = a :: b :: rest) (hca : ¬ a = CAN)
    (hst : h.state = YappState.R_WAIT ∨ h.state = YappState.R_HEADER) :
    processBuffer { h with timer := false } = processBuffer h := by
  rw [processBuffer, processBuffer]
  exact processBufferAux_timer_recv h.rxBuf.length h a b rest hbuf hca hst

-- ==========================================================================
-- Theorems
-- ==========================================================================

/-- C6: for every non-Idle state, `start_send` and `start_receive` return
the failure result `(False, "Transfer already in progress")` and leave
the handler — every field of the active session — unchanged. -/
theorem c6_reject_second_transfer (h : Handler) (name contents : List Nat) (dir : String)
    (hs : h.state ≠ YappState.IDLE) :
    startSend h name contents = (h, false, "Transfer already in progress") ∧
    startReceive h dir = (h, false, "Transfer already in progress") := by
  constructor
  · rw [startSend, if_pos hs]
  · rw [startReceive, if_pos hs]

/-- Witness for C6 at a concrete active session (state `R_WAIT`). -/
theorem c6_reject_second_transfer_witness :
    startSend recvWaiting [97] [1, 2] = (recvWaiting, false, "Transfer already in progress") ∧
    startReceive recvWaiting "d" = (recvWaiting, false, "Transfer already in progress") :=
  c6_reject_second_transfer recvWaiting [97] [1, 2] "d" (by decide)

/-- C10 (implicit): in the `IDLE` state, `process_data` forwards the
inbound bytes unchanged to the `on_rx_data` passthrough callback and
changes nothing else: no buffer growth, no decoding, no transition, no
packet send. -/
theorem c10_idle_passthrough (h : Handler) (d : List Nat)
    (hs : h.state = YappState.IDLE) :
    processData h d = { h with rxPassthrough := h.rxPassthrough ++ [d] } := by
  rw [processData, if_pos hs]

/-- Witness for C10 on a fresh handler. -/
theorem c10_idle_passthrough_witness :
    processData initHandler [1, 2, 3] =
      { initHandler with rxPassthrough := initHandler.rxPassthrough ++ [[1, 2, 3]] } :=
  c10_idle_passthrough initHandler [1, 2, 3] rfl

/-- C9: `cancel()` is idempotent — two calls in a row produce exactly the
same handler (state, sent packets, events, finished callbacks) as one
call, and on an `IDLE` or terminal handler `cancel()` changes nothing
and fires no callback. -/
theorem c9_cancel_idempotent :
    (∀ h : Handler, cancelOp (cancelOp h) = cancelOp h) ∧
    (∀ h : Handler,
      h.state = YappState.IDLE ∨ h.state = YappState.DONE ∨ h.state = YappState.ERROR →
      cancelOp h = h) := by
  have hterm : ∀ h : Handler,
      h.state = YappState.IDLE ∨ h.state = YappState.DONE ∨ h.state = YappState.ERROR →
      cancelOp h = h := by
    intro h hc
    rw [cancelOp, if_pos hc]
  refine ⟨?_, hterm⟩
  intro h
  by_cases hc : h.state = YappState.IDLE ∨ h.state = YappState.DONE ∨ h.state = YappState.ERROR
  · rw [hterm h hc, hterm h hc]
  · have h1 : (cancelOp h).state = YappState.ERROR := by
      rw [cancelOp, if_neg hc]
      rfl
    exact hterm _ (Or.inr (Or.inr h1))

/-- Witness for C9 on a concrete active session and a concrete idle one. -/
theorem c9_cancel_idempotent_witness :
    cancelOp (cancelOp recvWaiting) = cancelOp recvWaiting ∧ cancelOp initHandler = initHandler :=
  ⟨c9_cancel_idempotent.1 recvWaiting, c9_cancel_idempotent.2 initHandler (Or.inl rfl)⟩

/-- C2 fails on the code: in the receiver-wait state a complete Text
packet (`DLE 02` carrying the bytes `ENQ 01`) raises no text event and
DOES cause a state transition — the `DLE` byte is discarded one byte at
a time and its payload is reinterpreted, here as an SI packet, moving
the machine from `R_WAIT` to `R_HEADER`. -/
theorem c2_counterexample :
    recvWaiting.state = YappState.R_WAIT ∧
    (processData recvWaiting [DLE, 2, ENQ, 0x01]).state = YappState.R_HEADER ∧
    (processData recvWaiting [DLE, 2, ENQ, 0x01]).events =
      recvWaiting.events ++
        [(YappEvent.RECEIVED, "SI (Send Init)"), (YappEvent.SENT, "RR (Receive Ready)")] :=
  ⟨rfl, rfl, rfl⟩

/-- C2 amended: only in the sender-data state `S_DATA` does a complete
Text packet (`DLE`, length byte, payload) raise a `RECEIVED` event
carrying the decoded text and leave the machine's state — indeed every
session field — unchanged, consuming exactly the packet. -/
theorem c2_text_in_sender_data (h : Handler) (payload : List Nat)
    (hs : h.state = YappState.S_DATA) (hb : h.rxBuf = []) :
    processData h ([DLE, payload.length] ++ payload) =
      { h with events := h.events ++ [(YappEvent.RECEIVED, s!"TX: {asciiDecode payload}")] } := by
  have hne : ¬ h.state = YappState.IDLE := by rw [hs]; exact fun hcon => by cases hcon
  rw [processData, if_neg hne, hb]
  simp only [List.nil_append, List.cons_append]
  rw [processBuffer]
  simp only [List.length_cons]
  rw [processBufferAux_succ _ _ _ _ _ rfl]
  simp only [processBufferStep, processSenderDataInterrupt, hs, DLE, CAN, logEvent]
  simp only [List.take_length, List.drop_length, lt_irrefl, if_false, reduceCtorEq,
    or_self, ite_false, ite_true]
  rw [processBufferAux_nil _ _ rfl]
  simp [hb]

/-- Witness for C2's amended theorem: a concrete `S_DATA` sender
processing the Text packet `DLE 02 "Hi"`. -/
theorem c2_text_in_sender_data_witness :
    processData { senderStarted with state := YappState.S_DATA } ([DLE, 2] ++ [72, 105]) =
      { { senderStarted with state := YappState.S_DATA } with
        events := { senderStarted with state := YappState.S_DATA }.events ++
          [(YappEvent.RECEIVED, s!"TX: {asciiDecode [72, 105]}")] } :=
  c2_text_in_sender_data _ [72, 105] rfl rfl

/-- C1 fails on the code: along a reachable receiver session whose
header set `file_size = 1`, a single Data packet of 2 bytes drives
`bytes_transferred` to 2 > `file_size` — `_process_receiver_data` never
checks the advisory size. -/
theorem c1_counterexample :
    recvData.state = YappState.R_DATA ∧
    recvData.fileSize = 1 ∧
    (processData recvData [STX, 2, 65, 66]).bytesTransferred = 2 :=
  ⟨rfl, rfl, rfl⟩

/-- C5: in `R_DATA`, a Data packet with length byte 0 carries exactly
256 payload bytes: the decoder waits until 2 + 256 bytes are buffered
(consuming nothing before that), then consumes all 258 bytes, appends
the 256 payload bytes to the open file and advances
`bytes_transferred` by 256. -/
theorem c5_data_len_zero (h : Handler) (payload w : List Nat)
    (hs : h.state = YappState.R_DATA) (hb : h.rxBuf = [])
    (hf : h.fileHandle = some (FileHandle.writer w)) :
    (payload.length = 256 →
      processData h ([STX, 0] ++ payload) =
        updateProgress { h with
          fileHandle := some (FileHandle.writer (w ++ payload))
          bytesTransferred := h.bytesTransferred + 256 }) ∧
    (payload.length < 256 →
      processData h ([STX, 0] ++ payload) = { h with rxBuf := [STX, 0] ++ payload }) := by
  have hne : ¬ h.state = YappState.IDLE := by rw [hs]; exact fun hcon => by cases hcon
  constructor
  · intro h256
    rw [processData, if_neg hne, hb]
    simp only [List.nil_append, List.cons_append]
    rw [processBuffer]
    simp only [List.length_cons]
    rw [processBufferAux_succ _ _ _ _ _ rfl]
    simp only [processBufferStep, processReceiverData, hs, STX, CAN, reduceCtorEq, or_self,
      ite_false, ite_true]
    rw [← h256]
    simp only [ne_eq, lt_irrefl, List.take_length, List.drop_length, ite_false, if_false,
      not_true_eq_false, reduceCtorEq]
    rw [hf]
    simp only [updateProgress, h256]
    rw [processBufferAux_nil _ _ rfl]
    simp [hb, h256]
  · intro hlt
    rw [processData, if_neg hne, hb]
    simp only [List.nil_append, List.cons_append]
    rw [processBuffer]
    simp only [List.length_cons]
    rw [processBufferAux_succ _ _ _ _ _ rfl]
    simp only [processBufferStep, processReceiverData, hs, STX, CAN, reduceCtorEq, or_self,
      ite_false, ite_true]
    simp [hlt]

/-- Witness for C5 on the reachable `R_DATA` receiver session, with a
256-byte payload (and a 255-byte payload for the waiting half). -/
theorem c5_data_len_zero_witness :
    (processData recvData ([STX, 0] ++ List.replicate 256 65) =
      updateProgress { recvData with
        fileHandle := some (FileHandle.writer ([] ++ List.replicate 256 65))
        bytesTransferred := recvData.bytesTransferred + 256 }) ∧
    (processData recvData ([STX, 0] ++ List.replicate 255 66) =
      { recvData with rxBuf := [STX, 0] ++ List.replicate 255 66 }) :=
  ⟨(c5_data_len_zero recvData (List.replicate 256 65) [] rfl rfl rfl).1
     (by rw [List.length_replicate]),
   (c5_data_len_zero recvData (List.replicate 255 66) [] rfl rfl rfl).2
     (by rw [List.length_replicate]; omega)⟩

/-- C7 is right and the code is wrong: the remote-Cancel fast path in
`_process_buffer` runs before the terminal-state discard branch, so a
session that has just finished successfully (`EOT` in `R_WAIT`, firing
`on_finished(True, ...)`) processes a stray Cancel in the same delivery
and fires `on_finished` a SECOND time, flipping `DONE` to `ERROR`. -/
theorem c7_double_finish_bug :
    (processData recvWaiting [EOT, 0x01, CAN, 0]).finished =
      [(true, "Transfer complete (no files)"), (false, "Cancelled by remote: ")] ∧
    (processData recvWaiting [EOT, 0x01, CAN, 0]).state = YappState.ERROR ∧
    (processData recvWaiting [EOT, 0x01]).finished =
      [(true, "Transfer complete (no files)")] ∧
    (processData (processData recvWaiting [EOT, 0x01]) [CAN, 0]).finished =
      [(true, "Transfer complete (no files)"), (false, "Cancelled by remote: ")] :=
  ⟨rfl, rfl, rfl, rfl⟩

/-- C4: from a freshly started send session with no response, the first
five timer expiries each resend SI (retry counter `1..5`, staying in
`S_INIT`), the sixth reaches the `ERROR` (Failed) terminal state; the
SI packet is sent exactly `1 + MAX_SI_RETRIES = 6` times and never
more; and a timeout in any state other than `S_INIT` never retries
(never touches the retry counter, never sends an SI packet). -/
theorem c4_timeout_retry_bound :
    (∀ n : Nat, n ≤ 5 →
      (timeoutStep^[n] senderStarted).state = YappState.S_INIT ∧
      (timeoutStep^[n] senderStarted).siRetries = n ∧
      countSI (timeoutStep^[n] senderStarted) = n + 1) ∧
    (∀ n : Nat, 6 ≤ n →
      (timeoutStep^[n] senderStarted).state = YappState.ERROR ∧
      countSI (timeoutStep^[n] senderStarted) = 6) ∧
    (∀ h : Handler, h.state ≠ YappState.S_INIT →
      (onTimeout h).siRetries = h.siRetries ∧ countSI (onTimeout h) = countSI h) := by
  refine ⟨?_, ?_, ?_⟩
  · intro n hn
    interval_cases n <;> exact ⟨rfl, rfl, rfl⟩
  · have hfix : timeoutStep (timeoutStep^[6] senderStarted) = timeoutStep^[6] senderStarted := rfl
    have key : ∀ m : Nat, timeoutStep^[6 + m] senderStarted = timeoutStep^[6] senderStarted := by
      intro m
      induction m with
      | zero => rfl
      | succ k ih =>
        have h1 : 6 + (k + 1) = (6 + k) + 1 := by omega
        rw [h1, Function.iterate_succ_apply', ih, hfix]
    intro n hn
    obtain ⟨m, rfl⟩ : ∃ m, n = 6 + m := ⟨n - 6, by omega⟩
    rw [key m]
    exact ⟨rfl, rfl⟩
  · intro h hns
    have hcond : ¬ (h.state = YappState.S_INIT ∧ h.siRetries < MAX_SI_RETRIES) := by
      intro hcon
      exact hns hcon.1
    by_cases hid : h.state = YappState.IDLE
    · rw [onTimeout, if_neg hcond, if_neg (by rw [hid]; exact fun hcon => hcon rfl)]
      exact ⟨rfl, rfl⟩
    · rw [onTimeout, if_neg hcond, if_pos hid]
      refine ⟨rfl, ?_⟩
      have hT : strToBytes "Timeout" = [84, 105, 109, 101, 111, 117, 116] := rfl
      simp [countSI, finish, sendCancel, logEvent, sendPacket, cancelTimer, hT,
        List.filter_append]

/-- Witness for C4: the universally quantified parts applied at concrete
inputs (`n = 0` and a concrete `R_WAIT` handler). -/
theorem c4_timeout_retry_bound_witness :
    (senderStarted.state = YappState.S_INIT ∧ senderStarted.siRetries = 0 ∧
      countSI senderStarted = 1) ∧
    (onTimeout recvWaiting).siRetries = recvWaiting.siRetries ∧
    countSI (onTimeout recvWaiting) = countSI recvWaiting :=
  ⟨by simpa using c4_timeout_retry_bound.1 0 (by omega),
   c4_timeout_retry_bound.2.2 recvWaiting (by decide)⟩

/-- C8: for each length-prefixed packet class — Header (`SOH`), Data
(`STX`, length byte 0 meaning 256), NotReady/Resume (`NAK`), Cancel
(`CAN`), Text (`DLE`) — a buffer holding the 2-byte header but fewer
than the declared payload bytes is reported as need-more-data, never an
error: zero bytes are consumed and the receive buffer is identical
before and after the call, so a later delivery of the remaining bytes
decodes exactly as if all bytes had arrived at once.  (The sender and
receiver-control dispatchers disarm the crash timer on entry, the only
other effect on those paths.) -/
theorem c8_need_more_data :
    (∀ (h : Handler) (n : Nat) (pl c2 : List Nat),
      (h.state = YappState.R_WAIT ∨ h.state = YappState.R_HEADER) → h.rxBuf = [] →
      pl.length < n →
      (processData h ([SOH, n] ++ pl)).rxBuf = [SOH, n] ++ pl ∧
      processData h ([SOH, n] ++ pl) = { h with rxBuf := [SOH, n] ++ pl, timer := false } ∧
      processData (processData h ([SOH, n] ++ pl)) c2 =
        processData h (([SOH, n] ++ pl) ++ c2)) ∧
    (∀ (h : Handler) (n : Nat) (pl c2 : List Nat),
      h.state = YappState.R_DATA → h.rxBuf = [] →
      pl.length < (if n ≠ 0 then n else 256) →
      processData h ([STX, n] ++ pl) = { h with rxBuf := [STX, n] ++ pl } ∧
      processData (processData h ([STX, n] ++ pl)) c2 =
        processData h (([STX, n] ++ pl) ++ c2)) ∧
    (∀ (h : Handler) (n : Nat) (pl c2 : List Nat),
      (h.state = YappState.S_INIT ∨ h.state = YappState.S_HEADER ∨
       h.state = YappState.S_EOF ∨ h.state = YappState.S_EOT) → h.rxBuf = [] →
      pl.length < n →
      processData h ([NAK, n] ++ pl) = { h with rxBuf := [NAK, n] ++ pl, timer := false } ∧
      processData (processData h ([NAK, n] ++ pl)) c2 =
        processData h (([NAK, n] ++ pl) ++ c2)) ∧
    (∀ (h : Handler) (n : Nat) (pl c2 : List Nat),
      h.state ≠ YappState.IDLE → h.rxBuf = [] → pl.length < n →
      processData h ([CAN, n] ++ pl) = { h with rxBuf := [CAN, n] ++ pl } ∧
      processData (processData h ([CAN, n] ++ pl)) c2 =
        processData h (([CAN, n] ++ pl) ++ c2)) ∧
    (∀ (h : Handler) (n : Nat) (pl c2 : List Nat),
      h.state = YappState.S_DATA → h.rxBuf = [] → pl.length < n →
      processData h ([DLE, n] ++ pl) = { h with rxBuf := [DLE, n] ++ pl } ∧
      processData (processData h ([DLE, n] ++ pl)) c2 =
        processData h (([DLE, n] ++ pl) ++ c2)) := by
  refine ⟨?_, ?_, ?_, ?_, ?_⟩
  · -- Header (SOH) in R_WAIT / R_HEADER
    intro h n pl c2 hst hb hlt
    have hne : ¬ h.state = YappState.IDLE := by
      rcases hst with h1 | h1 <;> rw [h1] <;> exact fun hcon => by cases hcon
    have h1 : processData h ([SOH, n] ++ pl) =
        { h with rxBuf := [SOH, n] ++ pl, timer := false } := by
      rw [processData, if_neg hne, hb]
      simp only [List.nil_append, List.cons_append]
      rw [processBuffer]
      rw [processBufferAux_succ _ _ _ _ _ rfl]
      rcases hst with h2 | h2 <;>
        simp [processBufferStep, processReceiverControl, cancelTimer, h2, SOH, CAN, ENQ, hlt,
          Nat.not_lt.mpr (Nat.le_of_lt hlt)]
    refine ⟨by rw [h1], h1, ?_⟩
    rw [h1, processData, processData, if_neg hne, if_neg hne, hb]
    simp only [List.nil_append, List.cons_append, List.append_assoc]
    exact processBuffer_timer_recv { h with rxBuf := SOH :: n :: (pl ++ c2) } SOH n (pl ++ c2)
      rfl (by rw [SOH, CAN]; omega) hst
  · -- Data (STX) in R_DATA
    intro h n pl c2 hs hb hlt
    have hne : ¬ h.state = YappState.IDLE := by rw [hs]; exact fun hcon => by cases hcon
    have hlt' : pl.length < if n = 0 then 256 else n := by
      by_cases h0 : n = 0 <;> simp [h0] at hlt ⊢ <;> omega
    have h1 : processData h ([STX, n] ++ pl) = { h with rxBuf := [STX, n] ++ pl } := by
      rw [processData, if_neg hne, hb]
      simp only [List.nil_append, List.cons_append]
      rw [processBuffer]
      rw [processBufferAux_succ _ _ _ _ _ rfl]
      simp [processBufferStep, processReceiverData, hs, STX, CAN, hlt']
    refine ⟨h1, ?_⟩
    rw [h1, processData, processData, if_neg hne, if_neg hne, hb]
    simp [List.append_assoc]
  · -- NotReady / Resume (NAK) in the sender-response states
    intro h n pl c2 hst hb hlt
    have hne : ¬ h.state = YappState.IDLE := by
      rcases hst with h1 | h1 | h1 | h1 <;> rw [h1] <;> exact fun hcon => by cases hcon
    have h1 : processData h ([NAK, n] ++ pl) =
        { h with rxBuf := [NAK, n] ++ pl, timer := false } := by
      rw [processData, if_neg hne, hb]
      simp only [List.nil_append, List.cons_append]
      rw [processBuffer]
      rw [processBufferAux_succ _ _ _ _ _ rfl]
      rcases hst with h2 | h2 | h2 | h2 <;>
        simp [processBufferStep, processSenderResponse, cancelTimer, h2, NAK, CAN, ACK, hlt]
    refine ⟨h1, ?_⟩
    rw [h1, processData, processData, if_neg hne, if_neg hne, hb]
    simp only [List.nil_append, List.cons_append, List.append_assoc]
    exact processBuffer_timer_sender { h with rxBuf := NAK :: n :: (pl ++ c2) } NAK n (pl ++ c2)
      rfl (by rw [NAK, CAN]; omega) hst
  · -- Cancel (CAN) in any non-Idle state
    intro h n pl c2 hne hb hlt
    have h1 : processData h ([CAN, n] ++ pl) = { h with rxBuf := [CAN, n] ++ pl } := by
      rw [processData, if_neg hne, hb]
      simp only [List.nil_append, List.cons_append]
      rw [processBuffer]
      rw [processBufferAux_succ _ _ _ _ _ rfl]
      simp [processBufferStep, hlt]
    refine ⟨h1, ?_⟩
    rw [h1, processData, processData, if_neg hne, if_neg hne, hb]
    simp [List.append_assoc]
  · -- Text (DLE) in S_DATA
    intro h n pl c2 hs hb hlt
    have hne : ¬ h.state = YappState.IDLE := by rw [hs]; exact fun hcon => by cases hcon
    have h1 : processData h ([DLE, n] ++ pl) = { h with rxBuf := [DLE, n] ++ pl } := by
      rw [processData, if_neg hne, hb]
      simp only [List.nil_append, List.cons_append]
      rw [processBuffer]
      rw [processBufferAux_succ _ _ _ _ _ rfl]
      simp [processBufferStep, processSenderDataInterrupt, hs, DLE, CAN, hlt]
    refine ⟨h1, ?_⟩
    rw [h1, processData, processData, if_neg hne, if_neg hne, hb]
    simp [List.append_assoc]

/-- Witness for C8: each of the five classes applied to a concrete
session with a short buffer. -/
theorem c8_need_more_data_witness :
    (processData { recvWaiting with state := YappState.R_HEADER } [SOH, 4, 97]).rxBuf =
      [SOH, 4, 97] ∧
    processData recvData [STX, 0] = { recvData with rxBuf := [STX, 0] } ∧
    processData senderStarted [NAK, 3, 82] =
      { senderStarted with rxBuf := [NAK, 3, 82], timer := false } ∧
    processData recvData [CAN, 2, 65] = { recvData with rxBuf := [CAN, 2, 65] } ∧
    processData { senderStarted with state := YappState.S_DATA } [DLE, 5] =
      { { senderStarted with state := YappState.S_DATA } with rxBuf := [DLE, 5] } :=
  ⟨((c8_need_more_data.1 { recvWaiting with state := YappState.R_HEADER } 4 [97] []
      (Or.inr rfl) rfl (by decide)).1),
   (c8_need_more_data.2.1 recvData 0 [] [] rfl rfl (by decide)).1,
   (c8_need_more_data.2.2.1 senderStarted 3 [82] [] (Or.inl rfl) rfl (by decide)).1,
   (c8_need_more_data.2.2.2.1 recvData 2 [65] [] (by decide) rfl (by decide)).1,
   (c8_need_more_data.2.2.2.2 { senderStarted with state := YappState.S_DATA } 5 [] []
      rfl rfl (by decide)).1⟩

/-- C3 fails as stated: the empty Data payload (length 0 ≤ 255) encodes
as `STX 00`, and a length byte of 0 denotes 256 payload bytes, so
decoding the exact encoded bytes does not recover `(Data, [])` — the
decoder reports need-more-data. -/
theorem c3_counterexample :
    decodeOneSpec (encode PacketKind.data []) = DecodeResult.needMoreData ∧
    decodeOneSpec (encode PacketKind.data []) ≠
      DecodeResult.ok PacketKind.data [] (encode PacketKind.data []).length :=
  ⟨rfl, by decide⟩

/-- C3 amended: the codec round-trip holds for every packet kind and
payload except the two cases the wire format cannot represent — a Data
payload must be non-empty (its length byte 0 means 256), and a NotReady
payload must not begin with ASCII `R` (which marks a Resume request on
the wire); the fixed-format kinds carry an empty payload, and a Resume
payload begins with `R` by construction. -/
theorem c3_roundtrip_amended (k : PacketKind) (P : List Nat)
    (hlen : P.length ≤ 255)
    (hdata : k = PacketKind.data → 1 ≤ P.length)
    (hnr : k = PacketKind.notReady → ¬ (P ≠ [] ∧ P.headD 0 = 82))
    (hre : k = PacketKind.resume → P ≠ [] ∧ P.headD 0 = 82)
    (hfix : (k = PacketKind.sendInit ∨ k = PacketKind.recvReady ∨ k = PacketKind.recvFile ∨
        k = PacketKind.ackEof ∨ k = PacketKind.ackEot ∨ k = PacketKind.cancelAck ∨
        k = PacketKind.recvTpk ∨ k = PacketKind.eof ∨ k = PacketKind.eot) → P = []) :
    decodeOneSpec (encode k P) = DecodeResult.ok k P (encode k P).length := by
  cases k with
  | sendInit => rw [hfix (by simp)]; rfl
  | recvReady => rw [hfix (by simp)]; rfl
  | recvFile => rw [hfix (by simp)]; rfl
  | ackEof => rw [hfix (by simp)]; rfl
  | ackEot => rw [hfix (by simp)]; rfl
  | cancelAck => rw [hfix (by simp)]; rfl
  | recvTpk => rw [hfix (by simp)]; rfl
  | eof => rw [hfix (by simp)]; rfl
  | eot => rw [hfix (by simp)]; rfl
  | header =>
    simp [encode, decodeOneSpec, SOH, STX, ETX, EOT, ENQ, ACK, NAK, CAN, DLE,
      List.take_length]
    omega
  | data =>
    have h1 : ¬ P.length = 0 := by have := hdata rfl; omega
    have h2 : P.length < 256 := by omega
    simp [encode, decodeOneSpec, SOH, STX, ETX, EOT, ENQ, ACK, NAK, CAN, DLE,
      List.take_length, h1, h2]
    omega
  | notReady =>
    have h1 := hnr rfl
    simp only [ne_eq, List.headD_eq_head?_getD] at h1
    simp [encode, decodeOneSpec, SOH, STX, ETX, EOT, ENQ, ACK, NAK, CAN, DLE,
      List.take_length, h1]
    omega
  | resume =>
    have h1 := (hre rfl).1
    have h2 := (hre rfl).2
    simp only [List.headD_eq_head?_getD] at h2
    simp [encode, decodeOneSpec, SOH, STX, ETX, EOT, ENQ, ACK, NAK, CAN, DLE,
      List.take_length, h1, h2]
    omega
  | cancel =>
    simp [encode, decodeOneSpec, SOH, STX, ETX, EOT, ENQ, ACK, NAK, CAN, DLE,
      List.take_length]
    omega
  | text =>
    simp [encode, decodeOneSpec, SOH, STX, ETX, EOT, ENQ, ACK, NAK, CAN, DLE,
      List.take_length]
    omega

/-- Witness for C3's amended theorem: a Header packet with payload
`"a" NUL "1" NUL` and a Data packet with one byte. -/
theorem c3_roundtrip_amended_witness :
    decodeOneSpec (encode PacketKind.header [97, 0, 49, 0]) =
      DecodeResult.ok PacketKind.header [97, 0, 49, 0] (encode PacketKind.header [97, 0, 49, 0]).length ∧
    decodeOneSpec (encode PacketKind.data [65]) =
      DecodeResult.ok PacketKind.data [65] (encode PacketKind.data [65]).length :=
  ⟨c3_roundtrip_amended PacketKind.header [97, 0, 49, 0] (by decide) (by decide) (by decide)
      (by decide) (by decide),
   c3_roundtrip_amended PacketKind.data [65] (by decide) (by decide) (by decide)
      (by decide) (by decide)⟩

-- ==========================================================================
-- Sender-side invariant (C1 amended)
-- ==========================================================================

/-- Sender-side session invariant: `bytes_transferred` never exceeds
`file_size`; while the read handle is open the counter equals the read
position, which stays inside the file whose length is `file_size`; and
the machine is in a sender or terminal state. -/
def SenderInv (h : Handler) : Prop :=
  h.bytesTransferred ≤ h.fileSize ∧
  (∀ r : FileReader, h.fileHandle = some (FileHandle.reader r) →
    h.bytesTransferred = r.pos ∧ r.pos ≤ r.contents.length ∧
    h.fileSize = r.contents.length) ∧
  (h.state = YappState.S_INIT ∨ h.state = YappState.S_HEADER ∨ h.state = YappState.S_DATA ∨
   h.state = YappState.S_EOF ∨ h.state = YappState.S_EOT ∨ h.state = YappState.DONE ∨
   h.state = YappState.ERROR)

lemma SenderInv.of_eq {h h' : Handler} (hi : SenderInv h)
    (hb : h'.bytesTransferred = h.bytesTransferred) (hs : h'.fileSize = h.fileSize)
    (hf : h'.fileHandle = h.fileHandle) (hst : h'.state = h.state) : SenderInv h' := by
  obtain ⟨a, b, c⟩ := hi
  refine ⟨?_, ?_, ?_⟩
  · rw [hb, hs]; exact a
  · intro r hr
    rw [hb, hs]
    exact b r (by rw [← hf]; exact hr)
  · rw [hst]; exact c

lemma senderInv_logEvent (h : Handler) (e : YappEvent) (m : String) (hi : SenderInv h) :
    SenderInv (logEvent h e m) := hi.of_eq rfl rfl rfl rfl

lemma senderInv_sendPacket (h : Handler) (p : List Nat) (hi : SenderInv h) :
    SenderInv (sendPacket h p) := hi.of_eq rfl rfl rfl rfl

lemma senderInv_startTimer (h : Handler) (hi : SenderInv h) :
    SenderInv (startTimer h) := hi.of_eq rfl rfl rfl rfl

lemma senderInv_cancelTimer (h : Handler) (hi : SenderInv h) :
    SenderInv (cancelTimer h) := hi.of_eq rfl rfl rfl rfl

lemma senderInv_updateProgress (h : Handler) (hi : SenderInv h) :
    SenderInv (updateProgress h) := hi.of_eq rfl rfl rfl rfl

lemma senderInv_update_rxBuf (h : Handler) (buf : List Nat) (hi : SenderInv h) :
    SenderInv { h with rxBuf := buf } := hi.of_eq rfl rfl rfl rfl

lemma senderInv_sendSi (h : Handler) (hi : SenderInv h) :
    SenderInv (sendSi h) := hi.of_eq rfl rfl rfl rfl

lemma senderInv_sendRr (h : Handler) (hi : SenderInv h) :
    SenderInv (sendRr h) := hi.of_eq rfl rfl rfl rfl

lemma senderInv_sendRf (h : Handler) (hi : SenderInv h) :
    SenderInv (sendRf h) := hi.of_eq rfl rfl rfl rfl

lemma senderInv_sendAf (h : Handler) (hi : SenderInv h) :
    SenderInv (sendAf h) := hi.of_eq rfl rfl rfl rfl

lemma senderInv_sendAt (h : Handler) (hi : SenderInv h) :
    SenderInv (sendAt h) := hi.of_eq rfl rfl rfl rfl

lemma senderInv_sendCa (h : Handler) (hi : SenderInv h) :
    SenderInv (sendCa h) := hi.of_eq rfl rfl rfl rfl

lemma senderInv_sendNr (h : Handler) (reason : String) (hi : SenderInv h) :
    SenderInv (sendNr h reason) := hi.of_eq rfl rfl rfl rfl

lemma senderInv_sendCancel (h : Handler) (reason : String) (hi : SenderInv h) :
    SenderInv (sendCancel h reason) := hi.of_eq rfl rfl rfl rfl

lemma senderInv_closeHandle (h : Handler) (hi : SenderInv h) :
    SenderInv { h with fileHandle := none } := by
  obtain ⟨a, b, c⟩ := hi
  exact ⟨a, fun r hr => by simp at hr, c⟩

lemma senderInv_finish (h : Handler) (s : Bool) (m : String) (hi : SenderInv h) :
    SenderInv (finish h s m) := by
  obtain ⟨a, b, c⟩ := hi
  refine ⟨a, fun r hr => by simp [finish, logEvent, cancelTimer] at hr, ?_⟩
  cases s
  · exact Or.inr (Or.inr (Or.inr (Or.inr (Or.inr (Or.inr rfl)))))
  · exact Or.inr (Or.inr (Or.inr (Or.inr (Or.inr (Or.inl rfl)))))

lemma senderInv_sendHeader (h : Handler) (hi : SenderInv h) :
    SenderInv (sendHeader h) := by
  obtain ⟨a, b, c⟩ := hi
  exact ⟨a, fun r hr => b r hr, Or.inr (Or.inl rfl)⟩

lemma senderInv_sendEof (h : Handler) (hi : SenderInv h) :
    SenderInv (sendEof h) := by
  obtain ⟨a, b, c⟩ := hi
  exact ⟨a, fun r hr => b r hr, Or.inr (Or.inr (Or.inr (Or.inl rfl)))⟩

lemma senderInv_sendEot (h : Handler) (hi : SenderInv h) :
    SenderInv (sendEot h) := by
  obtain ⟨a, b, c⟩ := hi
  exact ⟨a, fun r hr => b r hr, Or.inr (Or.inr (Or.inr (Or.inr (Or.inl rfl))))⟩

lemma senderInv_setState (h : Handler) (s : YappState)
    (hs : s = YappState.S_INIT ∨ s = YappState.S_HEADER ∨ s = YappState.S_DATA ∨
      s = YappState.S_EOF ∨ s = YappState.S_EOT ∨ s = YappState.DONE ∨ s = YappState.ERROR)
    (hi : SenderInv h) : SenderInv { h with state := s } := by
  obtain ⟨a, b, _⟩ := hi
  exact ⟨a, fun r hr => b r hr, hs⟩

lemma senderInv_sendDataBlock (h : Handler) (hi : SenderInv h) :
    SenderInv (sendDataBlock h).1 := by
  obtain ⟨a, b, c⟩ := hi
  obtain ⟨st, buf, fh, fn, fs, bt, dd, sr, tm, snt, evs, prg, fin, rxp⟩ := h
  rcases fh with _ | (⟨contents, pos⟩ | w)
  · exact ⟨a, b, c⟩
  · obtain ⟨hbp0, hple0, hsz0⟩ := b ⟨contents, pos⟩ rfl
    have hbp : bt = pos := hbp0
    have hple : pos ≤ contents.length := hple0
    have hsz : fs = contents.length := hsz0
    by_cases hd : (contents.drop pos).take MAX_DATA_LEN = []
    · simp only [sendDataBlock, if_pos hd]
      exact ⟨a, b, c⟩
    · have hL : ((contents.drop pos).take MAX_DATA_LEN).length ≤
          contents.length - pos := by
        have h1 : ((contents.drop pos).take MAX_DATA_LEN).length =
            min MAX_DATA_LEN (contents.drop pos).length := List.length_take _ _
        have h2 : (contents.drop pos).length = contents.length - pos :=
          List.length_drop _ _
        omega
      simp only [sendDataBlock, if_neg hd]
      refine ⟨?_, ?_, c⟩
      · show bt + ((contents.drop pos).take MAX_DATA_LEN).length ≤ fs
        omega
      · intro r' hr'
        have hr2 : FileHandle.reader
            { contents := contents,
              pos := pos + ((contents.drop pos).take MAX_DATA_LEN).length } =
            FileHandle.reader r' := Option.some.inj hr'
        have hr3 : r' =
            { contents := contents,
              pos := pos + ((contents.drop pos).take MAX_DATA_LEN).length } := by
          cases hr2; rfl
        subst hr3
        refine ⟨?_, ?_, ?_⟩
        · show bt + ((contents.drop pos).take MAX_DATA_LEN).length = pos + _
          omega
        · show pos + ((contents.drop pos).take MAX_DATA_LEN).length ≤ contents.length
          omega
        · show fs = contents.length
          omega
  · exact ⟨a, b, c⟩

lemma senderInv_sendDataLoopAux (fuel : Nat) (h : Handler) (hi : SenderInv h) :
    SenderInv (sendDataLoopAux fuel h) := by
  induction fuel generalizing h with
  | zero => exact hi
  | succ n ih =>
    rw [sendDataLoopAux]
    split
    · rcases hsd : sendDataBlock h with ⟨h1, more⟩
      have hb := senderInv_sendDataBlock h hi
      rw [hsd] at hb
      rcases more
      · exact senderInv_sendEof _ (senderInv_closeHandle _ hb)
      · exact ih h1 hb
    · exact hi

lemma senderInv_sendDataLoop (h : Handler) (hi : SenderInv h) :
    SenderInv (sendDataLoop h) := senderInv_sendDataLoopAux _ h hi

/-- State reset performed by the (unsupported) Resume branch: seek the
read handle to position 0 and zero the transfer counter. -/
lemma senderInv_resumeSeek (h : Handler) (r : FileReader)
    (hf : h.fileHandle = some (FileHandle.reader r)) (hi : SenderInv h) :
    SenderInv { h with
      fileHandle := some (FileHandle.reader { r with pos := 0 })
      bytesTransferred := 0 } := by
  obtain ⟨a, b, c⟩ := hi
  obtain ⟨_, _, hsz⟩ := b r hf
  refine ⟨Nat.zero_le _, ?_, c⟩
  intro r' hr'
  have hr2 : r' = { r with pos := 0 } := by
    cases Option.some.inj hr'
    rfl
  subst hr2
  exact ⟨rfl, Nat.zero_le _, hsz⟩

lemma senderInv_zeroBytesNoReader (h : Handler)
    (hnr : ∀ r : FileReader, ¬ h.fileHandle = some (FileHandle.reader r)) (hi : SenderInv h) :
    SenderInv { h with bytesTransferred := 0 } := by
  obtain ⟨a, b, c⟩ := hi
  exact ⟨Nat.zero_le _, fun r hr => absurd hr (hnr r), c⟩

lemma senderInv_processSenderResponse (h : Handler) (a b : Nat) (rest : List Nat)
    (hi : SenderInv h) : SenderInv (processSenderResponse h a b rest).1 := by
  have hc := senderInv_cancelTimer h hi
  simp only [processSenderResponse]
  split
  · -- ACK class
    have hx : SenderInv { cancelTimer h with rxBuf := rest } := senderInv_update_rxBuf _ _ hc
    split
    · have hL := senderInv_logEvent _ YappEvent.RECEIVED "RR (Receive Ready)" hx
      split
      · exact senderInv_sendHeader _ hL
      · exact hL
    · split
      · have hL := senderInv_logEvent _ YappEvent.RECEIVED "RF (Receive File)" hx
        split
        · exact senderInv_sendDataLoop _ (senderInv_logEvent _ _ _
            (senderInv_setState _ _ (Or.inr (Or.inr (Or.inl rfl))) hL))
        · exact hL
      · split
        · have hL := senderInv_logEvent _ YappEvent.RECEIVED "AF (Ack End of File)" hx
          split
          · exact senderInv_sendEot _ hL
          · exact hL
        · split
          · have hL := senderInv_logEvent _ YappEvent.RECEIVED
              "AT (Ack End of Transmission)" hx
            split
            · exact senderInv_finish _ _ _ hL
            · exact hL
          · split
            · exact senderInv_finish _ _ _ (senderInv_logEvent _ _ _ hx)
            · split
              · have hL := senderInv_logEvent _ YappEvent.RECEIVED
                  "RT (YappC requested - not supported, using standard)" hx
                split
                · exact senderInv_sendDataLoop _
                    (senderInv_setState _ _ (Or.inr (Or.inr (Or.inl rfl))) hL)
                · exact hL
              · exact hx
  · split
    · -- NAK class
      split
      · exact hc
      · have hx : SenderInv { cancelTimer h with rxBuf := rest.drop b } :=
          senderInv_update_rxBuf _ _ hc
        split
        · have hL := senderInv_logEvent _ YappEvent.RECEIVED
            "RE (Resume) - not supported, restarting" hx
          split
          · split
            · next x r heq => exact senderInv_sendHeader _ (senderInv_resumeSeek _ r heq hL)
            · next x hne => exact senderInv_sendHeader _ (senderInv_zeroBytesNoReader _ hne hL)
          · exact hL
        · exact senderInv_finish _ _ _ (senderInv_logEvent _ _ _ hx)
    · exact senderInv_update_rxBuf _ _ hc

lemma senderInv_processSenderDataInterrupt (h : Handler) (a b : Nat) (rest : List Nat)
    (hi : SenderInv h) : SenderInv (processSenderDataInterrupt h a b rest).1 := by
  simp only [processSenderDataInterrupt]
  split
  · split
    · exact hi
    · exact senderInv_logEvent _ _ _ (senderInv_update_rxBuf _ _ hi)
  · exact senderInv_finish _ _ _ (senderInv_sendCancel _ _ (senderInv_update_rxBuf _ _ hi))

lemma senderInv_processBufferStep (h : Handler) (a b : Nat) (rest : List Nat)
    (hi : SenderInv h) : SenderInv (processBufferStep h a b rest).1 := by
  simp only [processBufferStep]
  split
  · split
    · exact hi
    · exact senderInv_finish _ _ _ (senderInv_sendCa _
        (senderInv_logEvent _ _ _ (senderInv_update_rxBuf _ _ hi)))
  · split
    · exact senderInv_processSenderResponse _ _ _ _ hi
    · split
      · next hrw =>
        exfalso
        obtain ⟨_, _, c⟩ := hi
        rcases hrw with hx | hx <;>
          rcases c with hc | hc | hc | hc | hc | hc | hc <;> rw [hc] at hx <;> cases hx
      · split
        · next hrd =>
          exfalso
          obtain ⟨_, _, c⟩ := hi
          rcases c with hc | hc | hc | hc | hc | hc | hc <;> rw [hc] at hrd <;> cases hrd
        · split
          · exact senderInv_processSenderDataInterrupt _ _ _ _ hi
          · exact senderInv_update_rxBuf _ _ hi

lemma senderInv_processBufferAux (fuel : Nat) (h : Handler) (hi : SenderInv h) :
    SenderInv (processBufferAux fuel h) := by
  induction fuel generalizing h with
  | zero => exact hi
  | succ n ih =>
    simp only [processBufferAux]
    split
    · split
      · exact ih _ (senderInv_processBufferStep h _ _ _ hi)
      · exact senderInv_processBufferStep h _ _ _ hi
    · exact hi

lemma senderInv_processData (h : Handler) (d : List Nat) (hi : SenderInv h) :
    SenderInv (processData h d) := by
  rw [processData]
  split
  · exact hi.of_eq rfl rfl rfl rfl
  · exact senderInv_processBufferAux _ _ (senderInv_update_rxBuf _ _ hi)

lemma senderInv_onTimeout (h : Handler) (hi : SenderInv h) : SenderInv (onTimeout h) := by
  rw [onTimeout]
  split
  · exact senderInv_sendSi _ (senderInv_logEvent _ _ _ (hi.of_eq rfl rfl rfl rfl))
  · split
    · exact senderInv_finish _ _ _ (senderInv_sendCancel _ _ (senderInv_logEvent _ _ _ hi))
    · exact hi

lemma senderInv_cancelOp (h : Handler) (hi : SenderInv h) : SenderInv (cancelOp h) := by
  rw [cancelOp]
  split
  · exact hi
  · exact senderInv_finish _ _ _ (senderInv_sendCancel _ _ hi)

lemma senderInv_startSend (h : Handler) (name contents : List Nat)
    (hidle : h.state = YappState.IDLE) : SenderInv (startSend h name contents).1 := by
  rw [startSend, if_neg (show ¬ h.state ≠ YappState.IDLE from fun hcon => hcon hidle)]
  refine ⟨Nat.zero_le _, ?_, Or.inl rfl⟩
  intro r hr
  have hr2 : r = { contents := contents, pos := 0 } := by
    cases Option.some.inj hr
    rfl
  subst hr2
  exact ⟨rfl, Nat.zero_le _, rfl⟩

/-- C1 amended: on the sender side the claimed invariant holds —
`SenderInv` (whose first conjunct is `bytes_transferred ≤ file_size`)
is established by `start_send` from `Idle` and preserved by every
operation of the session: processing arbitrary inbound bytes (including
every packet-driven transition and the data-send loop), timer expiry,
and local cancel.  On the receiver side the code does not enforce the
bound and it can be exceeded (see the counterexample). -/
theorem c1_sender_bound :
    (∀ (h : Handler) (name contents : List Nat), h.state = YappState.IDLE →
      SenderInv (startSend h name contents).1) ∧
    (∀ (h : Handler) (d : List Nat), SenderInv h → SenderInv (processData h d)) ∧
    (∀ h : Handler, SenderInv h → SenderInv (onTimeout h)) ∧
    (∀ h : Handler, SenderInv h → SenderInv (cancelOp h)) ∧
    (∀ h : Handler, SenderInv h → h.bytesTransferred ≤ h.fileSize) :=
  ⟨senderInv_startSend, senderInv_processData, senderInv_onTimeout, senderInv_cancelOp,
   fun _ hi => hi.1⟩

/-- Witness for C1's amended theorem: the invariant holds for the
concrete started sender and is preserved across a full `RR`/`RF`
exchange, which sends the entire 2-byte file; the bound follows. -/
theorem c1_sender_bound_witness :
    SenderInv senderStarted ∧
    SenderInv (processData (processData senderStarted [ACK, 1]) [ACK, 2]) ∧
    (processData (processData senderStarted [ACK, 1]) [ACK, 2]).bytesTransferred ≤
      (processData (processData senderStarted [ACK, 1]) [ACK, 2]).fileSize := by
  have h0 : SenderInv senderStarted := c1_sender_bound.1 initHandler [97] [104, 105] rfl
  have h1 := c1_sender_bound.2.1 senderStarted [ACK, 1] h0
  have h2 := c1_sender_bound.2.1 (processData senderStarted [ACK, 1]) [ACK, 2] h1
  exact ⟨h0, h2, c1_sender_bound.2.2.2.2 _ h2⟩

end Yapp
